import Mathlib

/-!
# Clinic Signal — bridge connectivity layer: a shallow embedding

This file embeds the bridge-connection service (`HueBridgeService`), the
reachability prober, the protocol-adapter request builders, the app-level
disconnect handler and the activity-log hook of the `clinic-signal`
repository as executable Lean definitions, and proves the spec's testable
properties about them.

Network effects are made explicit: every operation that performs a `fetch`
takes the outcome of that fetch (a completed response, an abort, or a
transport-level failure) as an argument, and returns the request it issued
alongside the updated service state and the JavaScript-level result
(`Except` models a thrown exception).  JavaScript numbers are modelled as
rationals; `Math.round` is floor of `x + 1/2`, which agrees with
JavaScript's round-half-up on the values involved.
-/

/-- A JSON value as manipulated by the JavaScript code.  `undefined` models the
JavaScript `undefined` (the result of a missing-property access), which is
distinct from JSON `null`. -/
inductive Json where
  | null
  | undefined
  | bool (b : Bool)
  | num (q : ℚ)
  | str (s : String)
  | arr (xs : List Json)
  | obj (fields : List (String × Json))
deriving Repr

/-- JavaScript truthiness: `undefined`, `null`, `false`, `0` and `""` are
falsy, everything else truthy. -/
def Json.truthy : Json → Bool
  | .null => false
  | .undefined => false
  | .bool b => b
  | .num q => q ≠ 0
  | .str s => s ≠ ""
  | .arr _ => true
  | .obj _ => true

/-- The kinds of exceptions the JavaScript code can raise. -/
inductive JsErr where
  /-- `throw new Error(msg)` -/
  | error (msg : String)
  /-- property access on `null`/`undefined` -/
  | typeError
  /-- `res.json()` on a body that is not valid JSON -/
  | syntaxError
  /-- the `fetch` itself rejected -/
  | fetchError
deriving Repr, DecidableEq

/-- `o[key]` — plain property access: throws on `null`/`undefined`,
yields `undefined` for a missing field or a non-object base. -/
def jsGet : Json → String → Except JsErr Json
  | .null, _ => .error .typeError
  | .undefined, _ => .error .typeError
  | .obj fields, key => .ok ((fields.lookup key).getD .undefined)
  | _, _ => .ok .undefined

/-- `o?.[key]` — optional chaining: yields `undefined` on `null`/`undefined`
instead of throwing. -/
def jsGetOpt : Json → String → Json
  | .null, _ => .undefined
  | .undefined, _ => .undefined
  | .obj fields, key => (fields.lookup key).getD .undefined
  | _, _ => .undefined

/-- `o[i]` — numeric index access. -/
def jsIndex : Json → Nat → Except JsErr Json
  | .null, _ => .error .typeError
  | .undefined, _ => .error .typeError
  | .arr xs, i => .ok ((xs.get? i).getD .undefined)
  | .str s, i => .ok (((s.data.get? i).map fun c => .str (String.mk [c])).getD .undefined)
  | _, _ => .ok .undefined

/-- `Object.entries(o)`: throws on `null`/`undefined`, enumerates an
object's fields, indexes a string or array, and is empty on other
primitives. -/
def jsEntries : Json → Except JsErr (List (String × Json))
  | .null => .error .typeError
  | .undefined => .error .typeError
  | .obj fields => .ok fields
  | .arr xs => .ok (xs.enum.map fun p => (toString p.1, p.2))
  | .str s => .ok (s.data.enum.map fun p => (toString p.1, Json.str (String.mk [p.2])))
  | _ => .ok []

/-- `Array.isArray`. -/
def jsIsArray : Json → Bool
  | .arr _ => true
  | _ => false

/-- `Math.round`: round half toward positive infinity. -/
def jsRound (q : ℚ) : ℤ := ⌊q + 1/2⌋

/-- The outcome of one `fetch` call, made explicit as an input. -/
inductive FetchOutcome where
  /-- the promise resolved with a response -/
  | completed (status : Nat) (body : Option Json)
  /-- the request was aborted (here: by the probe's timeout) -/
  | aborted
  /-- the promise rejected with any other transport-level error -/
  | failed
deriving Repr

/-- `Response.ok`: status in the 200–299 range. -/
def statusOk (status : Nat) : Bool := decide (200 ≤ status ∧ status < 300)

/-- A request as issued by `fetch`: method, URL, serialized body, and the
abort-timeout armed around it, if any. -/
structure Request where
  method : String
  url : String
  body : Option Json
  timeoutMs : Option Nat
deriving Repr

/-- The negotiated protocol version: `"v2"` (modern) or `"v1"` (legacy). -/
inductive ApiVersion where
  | v2
  | v1
deriving Repr, DecidableEq

/-- The mutable fields of the `HueBridgeService` singleton.  `bridgeIp` and
`apiKey` are `""` before `configure` runs (the JavaScript initializes them
to `null`; no claim exercises the null state). -/
structure BridgeState where
  bridgeIp : String
  apiKey : String
  connected : Bool
  apiVersion : Option ApiVersion
deriving Repr, DecidableEq

/-- `s.startsWith(p)`, computed on the underlying character lists. -/
def strStartsWith (s p : String) : Bool := p.data.isPrefixOf s.data

/-- `s.trim()`, restricted to ASCII whitespace (the hosts and keys the
claims exercise contain none). -/
def strTrim (s : String) : String :=
  String.mk (((s.data.dropWhile (·.isWhitespace)).reverse.dropWhile
    (·.isWhitespace)).reverse)

/-- `ip.replace(/^https?:\/\//, "")`. -/
def stripScheme (s : String) : String :=
  if strStartsWith s "https://" then String.mk (s.data.drop 8)
  else if strStartsWith s "http://" then String.mk (s.data.drop 7)
  else s

/-- `ip.replace(/\/+$/, "")`: remove every trailing `/`. -/
def stripTrailingSlashes (s : String) : String :=
  String.mk ((s.data.reverse.dropWhile (· = '/')).reverse)

/-- `HueBridgeService.configure(ip, apiKey)`. -/
def configure (s : BridgeState) (ip apiKey : String) : BridgeState :=
  let _ := s
  { bridgeIp := stripTrailingSlashes (stripScheme (strTrim ip))
    apiKey := strTrim apiKey
    connected := false
    apiVersion := none }

/-- `this._bridgeIp?.startsWith("localhost")`. -/
def isLocalhost (ip : String) : Bool := strStartsWith ip "localhost"

/-- `_bridgeOrigin()`: HTTP for localhost (fake bridge), HTTPS otherwise. -/
def bridgeOrigin (s : BridgeState) : String :=
  (if isLocalhost s.bridgeIp then "http" else "https") ++ "://" ++ s.bridgeIp

/-- `_baseUrlV2()`. -/
def baseUrlV2 (s : BridgeState) : String := bridgeOrigin s ++ "/clip/v2"

/-- `_baseUrlV1()`. -/
def baseUrlV1 (s : BridgeState) : String := bridgeOrigin s ++ "/api/" ++ s.apiKey

/-- `getCertAcceptUrl()`. -/
def getCertAcceptUrl (s : BridgeState) : String := "https://" ++ s.bridgeIp ++ "/api"

/-- The probe's failure classification: `network` (nothing answered) or
`cert` (answered but the transport-level trust handshake failed). -/
inductive ReachReason where
  | network
  | cert
deriving Repr, DecidableEq

/-- `{ reachable: true }` or `{ reachable: false, reason: ... }`. -/
structure ReachResult where
  reachable : Bool
  reason : Option ReachReason
deriving Repr, DecidableEq

/-- `checkReachability()`: the request it issues and how it classifies the
fetch outcome.  For a localhost bridge a bare request is sent and any
exception means `network`; for any other host a GET with a 5000 ms abort
timeout is sent, an abort means `network`, any other exception means
`cert`, and any completed response means reachable. -/
def checkReachability (s : BridgeState) (o : FetchOutcome) :
    Request × ReachResult :=
  if isLocalhost s.bridgeIp then
    (⟨"GET", bridgeOrigin s ++ "/api", none, none⟩,
      match o with
      | .completed _ _ => ⟨true, none⟩
      | _ => ⟨false, some .network⟩)
  else
    (⟨"GET", "https://" ++ s.bridgeIp ++ "/api", none, some 5000⟩,
      match o with
      | .completed _ _ => ⟨true, none⟩
      | .aborted => ⟨false, some .network⟩
      | .failed => ⟨false, some .cert⟩)

/-- One entry of the activity log. -/
structure LogEntry where
  id : Nat
  timestamp : Nat
  roomName : String
  signalLabel : String
  success : Bool
deriving Repr, DecidableEq

/-- The state update performed by `addLog` in `useActivityLog`:
`[newEntry, ...prev.slice(0, 49)]`. -/
def addLog (prev : List LogEntry) (e : LogEntry) : List LogEntry :=
  e :: prev.take 49

/-- The distinct result messages of `testConnection`, one constructor per
string literal of the source (the legacy rejection carries the
`data[0].error.description` value interpolated into its message). -/
inductive TCError where
  /-- "Cannot reach the bridge — you need to accept its security certificate first." -/
  | certNeeded
  /-- "Cannot reach the bridge. Check the IP address and make sure you're on the same network." -/
  | network
  /-- "Invalid API key." -/
  | invalidKey
  /-- "API key rejected: ..." -/
  | keyRejected (description : Json)
  /-- "Connected to bridge but API calls failed. Check your API key." -/
  | bothFailed
deriving Repr

/-- The object returned by `testConnection`; a field the source leaves off
a given return object is `false`/`none` here. -/
structure TCResult where
  success : Bool
  apiVersion : Option ApiVersion
  needsCert : Bool
  certUrl : Option String
  error : Option TCError
deriving Repr

/-- Step 3 of `testConnection`: the legacy (v1) fallback, reached when the
modern attempt neither succeeded nor met an explicit 401/403.  Appends the
legacy light-listing request to the trace. -/
def tcV1Fallback (s : BridgeState) (v1fetch : FetchOutcome) (reqs : List Request) :
    BridgeState × TCResult × List Request :=
  let v1Req : Request := ⟨"GET", baseUrlV1 s ++ "/lights", none, none⟩
  let reqs := reqs ++ [v1Req]
  let bothFailed : BridgeState × TCResult × List Request :=
    ({ s with connected := false }, ⟨false, none, false, none, some .bothFailed⟩, reqs)
  match v1fetch with
  | .completed status body =>
    if statusOk status then
      match body with
      | none => bothFailed
      | some data =>
        let v1Success : BridgeState × TCResult × List Request :=
          ({ s with connected := true, apiVersion := some .v1 },
            ⟨true, some .v1, false, none, none⟩, reqs)
        match data with
        | .arr xs =>
          let first := (xs.get? 0).getD .undefined
          let errField := jsGetOpt first "error"
          if errField.truthy then
            ({ s with connected := false },
              ⟨false, none, false, none,
                some (.keyRejected (jsGetOpt errField "description"))⟩, reqs)
          else v1Success
        | _ => v1Success
    else bothFailed
  | _ => bothFailed

/-- `testConnection()`: reachability check, then the modern (v2) attempt,
then the legacy (v1) fallback.  `probe`, `v2fetch`, `v1fetch` are the
outcomes of the three possible fetches; the returned list is the trace of
requests actually issued, in order. -/
def testConnection (s : BridgeState) (probe v2fetch v1fetch : FetchOutcome) :
    BridgeState × TCResult × List Request :=
  let pr := checkReachability s probe
  if pr.2.reachable = false then
    let s := { s with connected := false }
    if pr.2.reason = some .cert then
      (s, ⟨false, none, true, some (getCertAcceptUrl s), some .certNeeded⟩, [pr.1])
    else
      (s, ⟨false, none, false, none, some .network⟩, [pr.1])
  else
    let v2Req : Request := ⟨"GET", baseUrlV2 s ++ "/resource/light", none, none⟩
    match v2fetch with
    | .completed status _ =>
      if statusOk status then
        ({ s with connected := true, apiVersion := some .v2 },
          ⟨true, some .v2, false, none, none⟩, [pr.1, v2Req])
      else if status = 403 ∨ status = 401 then
        ({ s with connected := false },
          ⟨false, none, false, none, some .invalidKey⟩, [pr.1, v2Req])
      else tcV1Fallback s v1fetch [pr.1, v2Req]
    | _ => tcV1Fallback s v1fetch [pr.1, v2Req]

/-- `if (!res.ok) throw new Error(failMsg); const data = await res.json();`
— the shared response handling of the light/room operations. -/
def fetchJson (o : FetchOutcome) (failMsg : String) : Except JsErr Json :=
  match o with
  | .completed status body =>
    if statusOk status then
      match body with
      | some j => .ok j
      | none => .error .syntaxError
    else .error (.error failMsg)
  | _ => .error .fetchError

/-- `return res.json()` with no `res.ok` check (used only by `signalLight`). -/
def fetchJsonNoCheck (o : FetchOutcome) : Except JsErr Json :=
  match o with
  | .completed _ (some j) => .ok j
  | .completed _ none => .error .syntaxError
  | _ => .error .fetchError

/-- `===` against a string literal. -/
def jsIsStr (j : Json) (s : String) : Bool :=
  match j with
  | .str t => t = s
  | _ => false

/-- `(x || []).map(f)`: a falsy value is replaced by `[]`; calling `.map`
on a truthy non-array throws. -/
def jsMapArr (j : Json) (f : Json → Json) : Except JsErr Json :=
  if j.truthy then
    match j with
    | .arr xs => .ok (.arr (xs.map f))
    | _ => .error .typeError
  else .ok (.arr [])

/-- `getLights()`: modern branch returns `data.data || []`; legacy branch
flattens the keyed mapping into the normalized light objects. -/
def getLights (s : BridgeState) (o : FetchOutcome) :
    BridgeState × Request × Except JsErr Json :=
  if s.apiVersion = some .v2 then
    (s, ⟨"GET", baseUrlV2 s ++ "/resource/light", none, none⟩, do
      let data ← fetchJson o "Failed to fetch lights"
      let d ← jsGet data "data"
      pure (if d.truthy then d else .arr []))
  else
    (s, ⟨"GET", baseUrlV1 s ++ "/lights", none, none⟩, do
      let data ← fetchJson o "Failed to fetch lights"
      let entries ← jsEntries data
      let mapped ← entries.mapM fun p => do
        let light := p.2
        let name ← jsGet light "name"
        let st ← jsGet light "state"
        let xy := jsGetOpt st "xy"
        let color ← if xy.truthy then do
            let stP ← jsGet light "state"
            let xyP ← jsGet stP "xy"
            let x ← jsIndex xyP 0
            let y ← jsIndex xyP 1
            pure (Json.obj [("xy", .obj [("x", x), ("y", y)])])
          else pure Json.undefined
        pure (Json.obj [("id", .str p.1),
          ("metadata", .obj [("name", name)]),
          ("on", .obj [("on", jsGetOpt st "on")]),
          ("dimming", .obj [("brightness", jsGetOpt st "bri")]),
          ("color", color)])
      pure (Json.arr mapped))

/-- `getRooms()`: modern branch returns `data.data || []`; legacy branch
filters groups of vendor type `"Room"` and normalizes them. -/
def getRooms (s : BridgeState) (o : FetchOutcome) :
    BridgeState × Request × Except JsErr Json :=
  if s.apiVersion = some .v2 then
    (s, ⟨"GET", baseUrlV2 s ++ "/resource/room", none, none⟩, do
      let data ← fetchJson o "Failed to fetch rooms"
      let d ← jsGet data "data"
      pure (if d.truthy then d else .arr []))
  else
    (s, ⟨"GET", baseUrlV1 s ++ "/groups", none, none⟩, do
      let data ← fetchJson o "Failed to fetch rooms"
      let entries ← jsEntries data
      let filtered ← entries.filterM fun p => do
        let t ← jsGet p.2 "type"
        pure (jsIsStr t "Room")
      let mapped ← filtered.mapM fun p => do
        let name ← jsGet p.2 "name"
        let lightsField ← jsGet p.2 "lights"
        let children ← jsMapArr lightsField fun lid =>
          .obj [("rtype", .str "device"), ("rid", lid)]
        pure (Json.obj [("id", .str p.1),
          ("metadata", .obj [("name", name)]),
          ("children", children),
          ("services", .arr [.obj [("rtype", .str "grouped_light"), ("rid", .str p.1)]])])
      pure (Json.arr mapped))

/-- A CIE xy chromaticity pair, as stored in the signal configuration. -/
structure ColorXY where
  x : ℚ
  y : ℚ
deriving Repr, DecidableEq

/-- `setLightColor(lightId, color, brightness = 100)`. -/
def setLightColor (s : BridgeState) (lightId : String) (color : ColorXY)
    (brightness : ℚ := 100) (o : FetchOutcome := .failed) :
    BridgeState × Request × Except JsErr Json :=
  if s.apiVersion = some .v2 then
    let body : Json := .obj [("on", .obj [("on", .bool true)]),
      ("dimming", .obj [("brightness", .num brightness)]),
      ("color", .obj [("xy", .obj [("x", .num color.x), ("y", .num color.y)])])]
    (s, ⟨"PUT", baseUrlV2 s ++ "/resource/light/" ++ lightId, some body, none⟩,
      fetchJson o ("Failed to set light " ++ lightId))
  else
    let body : Json := .obj [("on", .bool true),
      ("bri", .num (jsRound (brightness / 100 * 254) : ℤ)),
      ("xy", .arr [.num color.x, .num color.y])]
    (s, ⟨"PUT", baseUrlV1 s ++ "/lights/" ++ lightId ++ "/state", some body, none⟩,
      fetchJson o ("Failed to set light " ++ lightId))

/-- `setGroupedLightColor(groupId, color, brightness = 100)`. -/
def setGroupedLightColor (s : BridgeState) (groupId : String) (color : ColorXY)
    (brightness : ℚ := 100) (o : FetchOutcome := .failed) :
    BridgeState × Request × Except JsErr Json :=
  if s.apiVersion = some .v2 then
    let body : Json := .obj [("on", .obj [("on", .bool true)]),
      ("dimming", .obj [("brightness", .num brightness)]),
      ("color", .obj [("xy", .obj [("x", .num color.x), ("y", .num color.y)])])]
    (s, ⟨"PUT", baseUrlV2 s ++ "/resource/grouped_light/" ++ groupId, some body, none⟩,
      fetchJson o ("Failed to set group " ++ groupId))
  else
    let body : Json := .obj [("on", .bool true),
      ("bri", .num (jsRound (brightness / 100 * 254) : ℤ)),
      ("xy", .arr [.num color.x, .num color.y])]
    (s, ⟨"PUT", baseUrlV1 s ++ "/groups/" ++ groupId ++ "/action", some body, none⟩,
      fetchJson o ("Failed to set group " ++ groupId))

/-- `turnOff(lightId)`. -/
def turnOff (s : BridgeState) (lightId : String) (o : FetchOutcome) :
    BridgeState × Request × Except JsErr Json :=
  if s.apiVersion = some .v2 then
    (s, ⟨"PUT", baseUrlV2 s ++ "/resource/light/" ++ lightId,
        some (.obj [("on", .obj [("on", .bool false)])]), none⟩,
      fetchJson o ("Failed to turn off " ++ lightId))
  else
    (s, ⟨"PUT", baseUrlV1 s ++ "/lights/" ++ lightId ++ "/state",
        some (.obj [("on", .bool false)]), none⟩,
      fetchJson o ("Failed to turn off " ++ lightId))

/-- `turnOffGroup(groupId)`. -/
def turnOffGroup (s : BridgeState) (groupId : String) (o : FetchOutcome) :
    BridgeState × Request × Except JsErr Json :=
  if s.apiVersion = some .v2 then
    (s, ⟨"PUT", baseUrlV2 s ++ "/resource/grouped_light/" ++ groupId,
        some (.obj [("on", .obj [("on", .bool false)])]), none⟩,
      fetchJson o ("Failed to turn off group " ++ groupId))
  else
    (s, ⟨"PUT", baseUrlV1 s ++ "/groups/" ++ groupId ++ "/action",
        some (.obj [("on", .bool false)]), none⟩,
      fetchJson o ("Failed to turn off group " ++ groupId))

/-- `signalLight(lightId)` — note: the source performs no `res.ok` check
here. -/
def signalLight (s : BridgeState) (lightId : String) (o : FetchOutcome) :
    BridgeState × Request × Except JsErr Json :=
  if s.apiVersion = some .v2 then
    (s, ⟨"PUT", baseUrlV2 s ++ "/resource/light/" ++ lightId,
        some (.obj [("alert", .obj [("action", .str "breathe")])]), none⟩,
      fetchJsonNoCheck o)
  else
    (s, ⟨"PUT", baseUrlV1 s ++ "/lights/" ++ lightId ++ "/state",
        some (.obj [("alert", .str "lselect")]), none⟩,
      fetchJsonNoCheck o)

/-- A room as stored in the App component's state. -/
structure Room where
  id : String
  name : String
  lights : List String
  groupedLightId : Option String
deriving Repr, DecidableEq

/-- The static demo-room configuration (`demoRooms.js`). -/
def DEMO_ROOMS : List Room :=
  [⟨"room-1", "Room 1 — Consultation", ["light-1a"], some "group-1"⟩,
   ⟨"room-2", "Room 2 — Examination", ["light-2a", "light-2b"], some "group-2"⟩,
   ⟨"room-3", "Room 3 — Treatment", ["light-3a"], some "group-3"⟩,
   ⟨"room-4", "Room 4 — Waiting Area", ["light-4a", "light-4b"], some "group-4"⟩]

/-- The App component's state relevant to connect/disconnect, together
with the `HueBridgeService` singleton it talks to.  `roomSignals` is the
active-signal map (room id → signal id); `toast` is the last toast shown
(message, type). -/
structure AppState where
  bridgeIp : String
  apiKey : String
  connected : Bool
  demoMode : Bool
  connectionError : String
  needsCert : Bool
  certUrl : String
  apiVersionDisplay : String
  rooms : List Room
  roomSignals : List (String × String)
  toast : Option (String × String)
  service : BridgeState

/-- `handleDisconnect` from the App component: resets the UI connection
flags, restores the demo rooms, clears the active signals and shows a
toast.  It performs no call into `HueBridgeService` and touches neither
the credential fields nor the service singleton. -/
def handleDisconnect (a : AppState) : AppState :=
  { a with connected := false
           demoMode := true
           apiVersionDisplay := ""
           rooms := DEMO_ROOMS
           roomSignals := []
           toast := some ("Disconnected — demo mode", "info") }

/-! ## Helper lemmas -/

/-- One `addLog` step always leaves at most 50 entries, whatever the
previous list held. -/
lemma addLog_length_le (prev : List LogEntry) (e : LogEntry) :
    (addLog prev e).length ≤ 50 := by
  simp only [addLog, List.length_cons, List.length_take]
  omega

/-- Folding `addLog` over any sequence keeps the length bound, given the
accumulator satisfies it. -/
lemma foldl_addLog_length_le (es : List LogEntry) :
    ∀ acc : List LogEntry, acc.length ≤ 50 → (es.foldl addLog acc).length ≤ 50 := by
  induction es with
  | nil => intro acc h; simpa using h
  | cons e t ih =>
    intro acc _
    exact ih (addLog acc e) (addLog_length_le acc e)

/-- The head of `dropWhile p` cannot satisfy `p`. -/
lemma head?_dropWhile_not (p : Char → Bool) (l : List Char) :
    ∀ c, (l.dropWhile p).head? = some c → p c = false := by
  induction l with
  | nil => intro c h; simp at h
  | cons a t ih =>
    intro c h
    by_cases hp : p a
    · rw [List.dropWhile_cons, if_pos hp] at h
      exact ih c h
    · rw [List.dropWhile_cons, if_neg hp] at h
      simp at h
      rw [← h]
      exact Bool.not_eq_true _ ▸ (by simpa using hp)

/-- `stripTrailingSlashes` never leaves a trailing slash. -/
lemma stripTrailingSlashes_getLast? (s : String) :
    ((stripTrailingSlashes s).data.getLast?.all (· != '/')) = true := by
  show (((s.data.reverse.dropWhile (· = '/')).reverse).getLast?.all (· != '/')) = true
  rw [List.getLast?_reverse]
  cases hh : (s.data.reverse.dropWhile (· = '/')).head? with
  | none => rfl
  | some c =>
    have := head?_dropWhile_not (· = '/') s.data.reverse c hh
    simp only [Option.all_some, bne_iff_ne, ne_eq]
    simpa using this

/-! ## Theorems for the claims -/

/-- C10: the activity log holds at most 50 entries; starting from the empty
log, every `addLog` call prepends exactly one entry at the front (newest
first), keeps at most the first 49 previous entries, and the length never
exceeds 50. -/
theorem addLog_prepends_and_is_bounded :
    (∀ es : List LogEntry, (es.foldl addLog []).length ≤ 50) ∧
    (∀ (prev : List LogEntry) (e : LogEntry),
      (addLog prev e).head? = some e ∧
      (addLog prev e).tail = prev.take 49 ∧
      (addLog prev e).length = min (prev.length + 1) 50) := by
  refine ⟨fun es => foldl_addLog_length_le es [] (by simp), fun prev e => ⟨rfl, rfl, ?_⟩⟩
  simp only [addLog, List.length_cons, List.length_take]
  omega

/-- C6: `configure` always stores the normalized host (scheme prefix and
trailing slashes stripped from the trimmed input), resets the connected
flag to false and the negotiated version to unset, whatever the prior
state was; the stored host never ends in a slash. -/
theorem configure_resets_connection (s : BridgeState) (ip apiKey : String) :
    (configure s ip apiKey).connected = false ∧
    (configure s ip apiKey).apiVersion = none ∧
    (configure s ip apiKey).bridgeIp = stripTrailingSlashes (stripScheme (strTrim ip)) ∧
    ((configure s ip apiKey).bridgeIp.data.getLast?.all (· != '/')) = true :=
  ⟨rfl, rfl, rfl, stripTrailingSlashes_getLast? (stripScheme (strTrim ip))⟩

/-- C1: for a non-local host, the reachability probe issues exactly one GET
to the fixed diagnostic path `https://host/api` with a 5000 ms abort
timeout, and classifies the outcome as: any completed response (any
status) reachable, an abort as unreachable with reason network, and any
other transport exception as unreachable with reason cert. -/
theorem checkReachability_nonlocal (s : BridgeState) (o : FetchOutcome)
    (h : isLocalhost s.bridgeIp = false) :
    (checkReachability s o).1 =
      ⟨"GET", "https://" ++ s.bridgeIp ++ "/api", none, some 5000⟩ ∧
    (checkReachability s o).2 =
      (match o with
       | .completed _ _ => ⟨true, none⟩
       | .aborted => ⟨false, some .network⟩
       | .failed => ⟨false, some .cert⟩) := by
  unfold checkReachability
  rw [h]
  exact ⟨rfl, rfl⟩

/-- Witness for C1: host 10.0.0.5 with an aborted probe. -/
theorem checkReachability_nonlocal_witness :
    (checkReachability ⟨"10.0.0.5", "key", false, none⟩ .aborted).1 =
      ⟨"GET", "https://10.0.0.5/api", none, some 5000⟩ ∧
    (checkReachability ⟨"10.0.0.5", "key", false, none⟩ .aborted).2 =
      ⟨false, some .network⟩ :=
  checkReachability_nonlocal ⟨"10.0.0.5", "key", false, none⟩ .aborted (by decide)

/-- C3 counterexample: against the non-local host 10.0.0.5, a request
attempt that fails with a non-abort transport exception (no completed
response) is classified reason = cert, not network. -/
theorem checkReachability_failed_nonlocal_is_cert :
    (checkReachability ⟨"10.0.0.5", "key", false, none⟩ .failed).2 =
      ⟨false, some .cert⟩ ∧
    (⟨false, some .cert⟩ : ReachResult) ≠ ⟨false, some .network⟩ :=
  ⟨rfl, by decide⟩

/-- C3 amended: for a local host, any failed request attempt is classified
reason = network; for a non-local host, only a timeout/abort is classified
network, and any other transport-level exception is classified cert. -/
theorem checkReachability_failure_classification (s : BridgeState) :
    (isLocalhost s.bridgeIp = true →
      (checkReachability s .aborted).2 = ⟨false, some .network⟩ ∧
      (checkReachability s .failed).2 = ⟨false, some .network⟩) ∧
    (isLocalhost s.bridgeIp = false →
      (checkReachability s .aborted).2 = ⟨false, some .network⟩ ∧
      (checkReachability s .failed).2 = ⟨false, some .cert⟩) := by
  constructor <;> intro h <;> simp [checkReachability, h]

/-- C4 counterexample: under the legacy protocol,
`setGroupedLightColor("group-2", {x:0.17,y:0.70}, 80)` produces the body
value bri = 203, because round(0.8*254) = round(203.2) = 203, not 204 as
the claim states. -/
theorem setGroupedLightColor_legacy_bri_is_203 :
    (setGroupedLightColor ⟨"192.168.1.10", "tok", true, some .v1⟩ "group-2"
        ⟨0.17, 0.70⟩ 80 .failed).2.1.body =
      some (.obj [("on", .bool true), ("bri", .num 203),
        ("xy", .arr [.num 0.17, .num 0.70])]) ∧
    jsRound ((80 : ℚ) / 100 * 254) = 203 ∧ (203 : ℚ) ≠ 204 := by
  have h : jsRound ((80 : ℚ) / 100 * 254) = 203 := by
    norm_num [jsRound]
  refine ⟨?_, h, by norm_num⟩
  simp [setGroupedLightColor, h]

/-- C4 amended: under the legacy protocol, `setGroupedLightColor` with
group id "group-2", color {x:0.17, y:0.70} and brightness 80 issues
`PUT .../groups/group-2/action` with body
`{on:true, bri:203, xy:[0.17,0.70]}`, where 203 = round(0.8*254). -/
theorem setGroupedLightColor_legacy_scenario :
    (setGroupedLightColor ⟨"192.168.1.10", "tok", true, some .v1⟩ "group-2"
        ⟨0.17, 0.70⟩ 80 .failed).2.1.method = "PUT" ∧
    (setGroupedLightColor ⟨"192.168.1.10", "tok", true, some .v1⟩ "group-2"
        ⟨0.17, 0.70⟩ 80 .failed).2.1.url =
      "https://192.168.1.10/api/tok/groups/group-2/action" ∧
    (setGroupedLightColor ⟨"192.168.1.10", "tok", true, some .v1⟩ "group-2"
        ⟨0.17, 0.70⟩ 80 .failed).2.1.body =
      some (.obj [("on", .bool true), ("bri", .num (jsRound ((80 : ℚ) / 100 * 254))),
        ("xy", .arr [.num 0.17, .num 0.70])]) ∧
    jsRound ((80 : ℚ) / 100 * 254) = 203 := by
  refine ⟨rfl, by simp [setGroupedLightColor, baseUrlV1, bridgeOrigin, isLocalhost, strStartsWith],
    by simp [setGroupedLightColor], by norm_num [jsRound]⟩

/-- C5: for any brightness percentage b in [0,100], the modern payload
carries the brightness percentage unchanged (hence in [0,100]) and the
legacy payload carries bri = round(b/100*254), an integer in [0,254], for
both the per-light and the grouped operation. -/
theorem brightness_encoding (s : BridgeState) (tid : String) (c : ColorXY)
    (b : ℚ) (o : FetchOutcome) (hb0 : 0 ≤ b) (hb1 : b ≤ 100) :
    (s.apiVersion = some .v2 →
      (setLightColor s tid c b o).2.1.body.map
          (fun j => jsGetOpt (jsGetOpt j "dimming") "brightness") = some (.num b) ∧
      (setGroupedLightColor s tid c b o).2.1.body.map
          (fun j => jsGetOpt (jsGetOpt j "dimming") "brightness") = some (.num b)) ∧
    (s.apiVersion = some .v1 →
      (setLightColor s tid c b o).2.1.body.map (fun j => jsGetOpt j "bri") =
        some (.num (jsRound (b / 100 * 254))) ∧
      (setGroupedLightColor s tid c b o).2.1.body.map (fun j => jsGetOpt j "bri") =
        some (.num (jsRound (b / 100 * 254)))) ∧
    0 ≤ jsRound (b / 100 * 254) ∧ jsRound (b / 100 * 254) ≤ 254 := by
  refine ⟨fun h => ?_, fun h => ?_, ?_, ?_⟩
  · constructor <;> simp [setLightColor, setGroupedLightColor, h] <;> rfl
  · constructor <;> simp [setLightColor, setGroupedLightColor, h] <;> rfl
  · rw [jsRound, Int.le_floor]
    push_cast
    linarith
  · rw [jsRound]
    have : ⌊b / 100 * 254 + 1 / 2⌋ < 255 := by
      rw [Int.floor_lt]
      push_cast
      linarith
    omega

/-- Witness for C5 at b = 80 in the legacy branch: bri = 203 ∈ [0,254]. -/
theorem brightness_encoding_witness :
    ((setLightColor ⟨"192.168.1.10", "tok", true, some .v1⟩ "light-1a"
        ⟨0.17, 0.7⟩ 80 .failed).2.1.body.map (fun j => jsGetOpt j "bri") =
      some (.num (jsRound ((80 : ℚ) / 100 * 254)))) ∧
    0 ≤ jsRound ((80 : ℚ) / 100 * 254) ∧ jsRound ((80 : ℚ) / 100 * 254) ≤ 254 :=
  let h := brightness_encoding ⟨"192.168.1.10", "tok", true, some .v1⟩ "light-1a"
    ⟨0.17, 0.7⟩ 80 .failed (by norm_num) (by norm_num)
  ⟨(h.2.1 rfl).1, h.2.2⟩

/-- C2: when the bridge is reachable and the modern light-listing call
completes with an explicit authorization-rejection status (401 or 403),
`testConnection` returns the invalid-credential failure, leaves the
service disconnected, and the request trace consists of exactly the probe
request and the modern request — the legacy light-listing request is never
issued. -/
theorem testConnection_auth_reject_no_fallback (s : BridgeState)
    (probe v1fetch : FetchOutcome) (st : Nat) (body : Option Json)
    (hreach : (checkReachability s probe).2.reachable = true)
    (hst : st = 403 ∨ st = 401) :
    (testConnection s probe (.completed st body) v1fetch).2.1.success = false ∧
    (testConnection s probe (.completed st body) v1fetch).2.1.error = some .invalidKey ∧
    (testConnection s probe (.completed st body) v1fetch).1.connected = false ∧
    (testConnection s probe (.completed st body) v1fetch).2.2 =
      [(checkReachability s probe).1,
       ⟨"GET", baseUrlV2 s ++ "/resource/light", none, none⟩] := by
  rcases hst with h | h <;> subst h <;>
    simp [testConnection, hreach, statusOk]

/-- Witness for C2: host 10.0.0.5, probe completed, modern call answers
403; the trace holds the probe and modern requests only. -/
theorem testConnection_auth_reject_no_fallback_witness :
    (testConnection ⟨"10.0.0.5", "tok", false, none⟩ (.completed 200 none)
        (.completed 403 none) .failed).2.1.success = false ∧
    (testConnection ⟨"10.0.0.5", "tok", false, none⟩ (.completed 200 none)
        (.completed 403 none) .failed).2.1.error = some .invalidKey ∧
    (testConnection ⟨"10.0.0.5", "tok", false, none⟩ (.completed 200 none)
        (.completed 403 none) .failed).1.connected = false ∧
    (testConnection ⟨"10.0.0.5", "tok", false, none⟩ (.completed 200 none)
        (.completed 403 none) .failed).2.2 =
      [⟨"GET", "https://10.0.0.5/api", none, some 5000⟩,
       ⟨"GET", "https://10.0.0.5/clip/v2/resource/light", none, none⟩] :=
  testConnection_auth_reject_no_fallback ⟨"10.0.0.5", "tok", false, none⟩
    (.completed 200 none) .failed 403 none rfl (Or.inl rfl)

/-- C7: none of the light/room operations modifies the service state —
the negotiated version, the stored host and the stored credential are all
preserved, whatever the state and whatever each fetch returns. -/
theorem operations_preserve_service_state (s : BridgeState)
    (lightId groupId : String) (c : ColorXY) (b : ℚ) (o : FetchOutcome) :
    (getLights s o).1 = s ∧ (getRooms s o).1 = s ∧
    (setLightColor s lightId c b o).1 = s ∧
    (setGroupedLightColor s groupId c b o).1 = s ∧
    (turnOff s lightId o).1 = s ∧ (turnOffGroup s groupId o).1 = s ∧
    (signalLight s lightId o).1 = s := by
  by_cases h : s.apiVersion = some ApiVersion.v2 <;>
    simp [getLights, getRooms, setLightColor, setGroupedLightColor,
      turnOff, turnOffGroup, signalLight, h]

/-- C8 counterexample: a well-formed JSON body that lacks the expected
`data` field — malformed with respect to the modern list schema — is
converted by `getLights` into a successful empty-list result instead of
raising. -/
theorem getLights_missing_data_field_succeeds :
    (getLights ⟨"192.168.1.10", "tok", true, some .v2⟩
        (.completed 200 (some (.obj [])))).2.2 = Except.ok (Json.arr []) :=
  rfl

/-- C8 amended: for `getLights` and `getRooms`, any non-success HTTP
outcome raises the typed request-failed error, a transport failure or a
body that is not parseable as JSON propagates as an exception, but a
parseable body of unexpected shape (missing `data` field, modern branch)
is normalized to a successful empty list rather than raising. -/
theorem list_ops_error_handling (s : BridgeState) (st : Nat) (body : Option Json) :
    (statusOk st = false →
      (getLights s (.completed st body)).2.2 = .error (.error "Failed to fetch lights") ∧
      (getRooms s (.completed st body)).2.2 = .error (.error "Failed to fetch rooms")) ∧
    ((getLights s .failed).2.2 = .error .fetchError ∧
     (getRooms s .failed).2.2 = .error .fetchError ∧
     (getLights s .aborted).2.2 = .error .fetchError ∧
     (getRooms s .aborted).2.2 = .error .fetchError) ∧
    (statusOk st = true →
      (getLights s (.completed st none)).2.2 = .error .syntaxError ∧
      (getRooms s (.completed st none)).2.2 = .error .syntaxError) ∧
    (s.apiVersion = some .v2 → statusOk st = true →
      (getLights s (.completed st (some (.obj [])))).2.2 = .ok (.arr []) ∧
      (getRooms s (.completed st (some (.obj [])))).2.2 = .ok (.arr [])) := by
  by_cases h : s.apiVersion = some ApiVersion.v2 <;>
    refine ⟨fun hok => ?_, ?_, fun hok => ?_, fun hv hok => ?_⟩ <;>
    simp_all [getLights, getRooms, fetchJson, h] <;> and_intros <;> rfl

/-- C9 counterexample: `handleDisconnect`, run from a connected state,
leaves the stored credentials untouched in both the App state and the
service singleton, and leaves the service's negotiated protocol version
and connected flag set — nothing is cleared except UI-level state. -/
theorem handleDisconnect_keeps_credentials :
    (handleDisconnect ⟨"192.168.1.10", "secret", true, false, "", false, "", "v2",
        DEMO_ROOMS, [("room-1", "emergency")], none,
        ⟨"192.168.1.10", "secret", true, some .v2⟩⟩).apiKey = "secret" ∧
    (handleDisconnect ⟨"192.168.1.10", "secret", true, false, "", false, "", "v2",
        DEMO_ROOMS, [("room-1", "emergency")], none,
        ⟨"192.168.1.10", "secret", true, some .v2⟩⟩).bridgeIp = "192.168.1.10" ∧
    (handleDisconnect ⟨"192.168.1.10", "secret", true, false, "", false, "", "v2",
        DEMO_ROOMS, [("room-1", "emergency")], none,
        ⟨"192.168.1.10", "secret", true, some .v2⟩⟩).service =
      ⟨"192.168.1.10", "secret", true, some .v2⟩ :=
  ⟨rfl, rfl, rfl⟩

/-- C9 amended: `handleDisconnect` always succeeds and resets the
UI-level connection state — connected flag false, demo mode on, displayed
API version cleared, demo rooms restored, active signals cleared — while
leaving the stored credentials and the service singleton (including its
negotiated protocol version) unchanged. -/
theorem handleDisconnect_resets_ui (a : AppState) :
    (handleDisconnect a).connected = false ∧
    (handleDisconnect a).demoMode = true ∧
    (handleDisconnect a).apiVersionDisplay = "" ∧
    (handleDisconnect a).rooms = DEMO_ROOMS ∧
    (handleDisconnect a).roomSignals = [] ∧
    (handleDisconnect a).bridgeIp = a.bridgeIp ∧
    (handleDisconnect a).apiKey = a.apiKey ∧
    (handleDisconnect a).service = a.service :=
  ⟨rfl, rfl, rfl, rfl, rfl, rfl, rfl, rfl⟩
